import Mathlib

/-!
Verification of the weather-dashboard application (`app.py`).

The pure classification and recommendation functions are embedded directly
from the source; the fetch pipeline (`get_weather_data`) and the session-state
update performed by the page script are embedded with the three HTTP
collaborators (geocoding, forecast, air quality) supplied as explicit inputs.
Python floats are modelled as exact rationals (every numeric literal and
comparison appearing in the source is exact in binary floating point at the
values the claims mention), machine integers as `Int`, and Python strings as
Lean strings over their character lists.
-/

/-- The Python substring test `needle in hay`. -/
def pyIn (needle hay : String) : Bool := decide (needle.data <:+: hay.data)

/-- The Python method `str.lower()` (the strings in the program are ASCII). -/
def pyLower (s : String) : String := ⟨s.data.map Char.toLower⟩

/-- Helper for `pyTitle`: the boolean records whether the previous character
was alphabetic (Python: cased). -/
def pyTitleAux : Bool → List Char → List Char
  | _, [] => []
  | prevCased, c :: cs =>
    if c.isAlpha then
      (if prevCased then c.toLower else c.toUpper) :: pyTitleAux true cs
    else
      c :: pyTitleAux false cs

/-- The Python method `str.title()` (on the ASCII strings the program applies it to). -/
def pyTitle (s : String) : String := ⟨pyTitleAux false s.data⟩

/-- The `WMO_CODES` dict of `app.py`, as an association list. -/
def WMO_CODES : List (Int × (String × String)) :=
  [(0, ("Clear sky", "☀️")),
   (1, ("Mainly clear", "🌤️")),
   (2, ("Partly cloudy", "⛅️")),
   (3, ("Overcast", "☁️")),
   (45, ("Fog", "🌫️")),
   (48, ("Depositing rime fog", "🌫️")),
   (51, ("Light drizzle", "💧")),
   (53, ("Moderate drizzle", "💧")),
   (55, ("Dense drizzle", "💧")),
   (56, ("Light freezing drizzle", "❄️💧")),
   (57, ("Dense freezing drizzle", "❄️💧")),
   (61, ("Slight rain", "🌧️")),
   (63, ("Moderate rain", "🌧️")),
   (65, ("Heavy rain", "🌧️")),
   (66, ("Light freezing rain", "❄️🌧️")),
   (67, ("Heavy freezing rain", "❄️🌧️")),
   (71, ("Slight snow fall", "❄️")),
   (73, ("Moderate snow fall", "❄️")),
   (75, ("Heavy snow fall", "❄️")),
   (77, ("Snow grains", "❄️")),
   (80, ("Slight rain showers", "🌦️")),
   (81, ("Moderate rain showers", "🌦️")),
   (82, ("Violent rain showers", "🌦️")),
   (85, ("Slight snow showers", "❄️🌦️")),
   (86, ("Heavy snow showers", "❄️🌦️")),
   (95, ("Thunderstorm", "⛈️")),
   (96, ("Thunderstorm with light hail", "⛈️")),
   (99, ("Thunderstorm with heavy hail", "⛈️"))]

/-- The Python lookup `dict.get(key, default)` for an `Int`-keyed association list. -/
def dictGet {α : Type} (d : List (Int × α)) (key : Int) (dflt : α) : α :=
  match List.find? (fun p => p.1 == key) d with
  | some p => p.2
  | none => dflt

/-- The keys of `WMO_CODES`. -/
def wmoKeys : List Int := WMO_CODES.map Prod.fst

/-- `WMO_CODES.get(code, ("Unknown", "❓"))` as used for display (lines 293 and 330). -/
def wmoDisplay (code : Int) : String × String :=
  dictGet WMO_CODES code ("Unknown", "❓")

/-- `get_aqi_level` of `app.py` (lines 106-119). -/
def get_aqi_level (aqi : Int) : String × String :=
  if aqi ≤ 50 then ("Good", "green")
  else if aqi ≤ 100 then ("Moderate", "yellow")
  else if aqi ≤ 150 then ("Unhealthy (SG)", "orange")
  else if aqi ≤ 200 then ("Unhealthy", "red")
  else if aqi ≤ 300 then ("Very Unhealthy", "purple")
  else ("Hazardous", "maroon")

/-- `WMO_CODES.get(weather_code, ("Unknown", ""))[0].lower()`, the lowered
condition string computed at the top of each recommendation function. -/
def condStr (weather_code : Int) : String :=
  pyLower (dictGet WMO_CODES weather_code ("Unknown", "")).1

/-- `temp if unit == "metric" else (temp - 32) * 5/9`, the normalisation
at the top of `get_weather_mood` and `get_clothing_recommendation`. -/
def toCelsius (unit : String) (temp : ℚ) : ℚ :=
  if unit == "metric" then temp else (temp - 32) * 5 / 9

/-- `get_weather_mood` of `app.py` (lines 142-159). -/
def get_weather_mood (weather_code : Int) (temp : ℚ) (unit : String) : String :=
  let temp_c := toCelsius unit temp
  let condition := condStr weather_code
  if pyIn "rain" condition || pyIn "storm" condition || pyIn "drizzle" condition then
    "Cozy indoor reading weather 📚"
  else if pyIn "snow" condition then
    "Hot chocolate & blanket vibes ☕️"
  else if temp_c > 30 then
    "Bright, breezy, and sunglasses on 😎"
  else if temp_c < 10 then
    "Crisp air & warm jacket day 🧣"
  else if pyIn "cloudy" condition || pyIn "overcast" condition then
    "Perfectly soft and cloudy skies ☁️"
  else if pyIn "clear" condition then
    "Blue skies and good times ahead ☀️"
  else
    "A great day to be you! ✨"

/-- `get_clothing_recommendation` of `app.py` (lines 161-180). -/
def get_clothing_recommendation (weather_code : Int) (temp : ℚ) (unit : String) : String :=
  let temp_c := toCelsius unit temp
  let condition := condStr weather_code
  if pyIn "rain" condition || pyIn "drizzle" condition then
    "Waterproof jacket and an umbrella are a must! ☂️"
  else if pyIn "snow" condition then
    "Heavy coat, gloves, and a warm hat. Stay bundled!"
  else if pyIn "storm" condition then
    "Stay indoors! But if you must go out, waterproof gear is essential."
  else if temp_c > 28 then
    "Light cotton or linen clothes. Stay hydrated!"
  else if 20 ≤ temp_c ∧ temp_c ≤ 28 then
    "A t-shirt and jeans/shorts will be comfortable."
  else if 10 ≤ temp_c ∧ temp_c < 20 then
    "A light jacket or sweater is a good idea. 🧥"
  else if temp_c < 10 then
    "Wear a warm coat, layers are your friend!"
  else
    "Check the conditions and dress accordingly."

/-- `get_activity_recommendation` of `app.py` (lines 182-197). -/
def get_activity_recommendation (weather_code : Int) (aqi_level : String) : String :=
  let condition := condStr weather_code
  let lvl := pyLower aqi_level
  if lvl ∈ (["unhealthy", "very unhealthy", "hazardous"] : List String) then
    "High pollution! (" ++ pyTitle lvl ++
      ") 😷 Best to stay indoors. Good day for study or indoor exercise."
  else if pyIn "rain" condition || pyIn "storm" condition || pyIn "drizzle" condition then
    "Looks wet out there! Perfect time for a movie marathon, baking, or visiting an indoor cafe. ☕"
  else if pyIn "snow" condition then
    "It\x27s a winter wonderland! ❄️ Great for building a snowman or cozying up by the fire."
  else if pyIn "clear" condition || pyIn "mainly clear" condition then
    "Clear skies! ☀️ Fantastic day for jogging, a picnic in the park, or photography."
  else if pyIn "cloudy" condition || pyIn "overcast" condition || pyIn "fog" condition then
    "Pleasantly overcast. Great for a long walk, gardening, or outdoor sports without the harsh sun."
  else
    "A versatile day! Most outdoor or indoor activities are on the table."

/-- One geocoding match (fields of `geo_data["results"][0]` the app reads). -/
structure Location where
  name : String
  country_code : String
  latitude : ℚ
  longitude : ℚ
  timezone : String

/-- The fields of the forecast response the app reads as `current` values. -/
structure WeatherData where
  current_weather_code : Int
  current_temperature_2m : ℚ

/-- The field of the air-quality response the app reads. -/
structure AirData where
  current_us_aqi : Int

/-- Outcome of one `requests.get(...)` followed by `raise_for_status()`:
either a decoded payload, an `HTTPError` (non-2xx status), or another
`RequestException` (transport failure). -/
inductive ApiResult (α : Type) where
  | ok : α → ApiResult α
  | httpError : String → ApiResult α
  | reqError : String → ApiResult α

/-- `get_weather_data` of `app.py` (lines 14-72), with the three collaborator
responses as inputs.  The geocoding payload is `none` when the JSON lacks a
`results` key, `some l` with the match list otherwise.  The first returned
component is the `(weather_data, air_data, location)` triple of Python return
values (each `None` or a value); the second collects the `st.error` messages
emitted during the call. -/
def get_weather_data (city : String) (geo : ApiResult (Option (List Location)))
    (weather : ApiResult WeatherData) (air : ApiResult AirData) :
    (Option WeatherData × Option AirData × Option Location) × List String :=
  match geo with
  | .httpError err => ((none, none, none), ["HTTP error: " ++ err])
  | .reqError e => ((none, none, none), ["Error fetching data: " ++ e])
  | .ok none => ((none, none, none), ["City not found: " ++ city ++ ". Please try again."])
  | .ok (some []) => ((none, none, none), ["City not found: " ++ city ++ ". Please try again."])
  | .ok (some (location :: _)) =>
    match weather with
    | .httpError err => ((none, none, none), ["HTTP error: " ++ err])
    | .reqError e => ((none, none, none), ["Error fetching data: " ++ e])
    | .ok weather_data =>
      match air with
      | .httpError err => ((none, none, none), ["HTTP error: " ++ err])
      | .reqError e => ((none, none, none), ["Error fetching data: " ++ e])
      | .ok air_data => ((some weather_data, some air_data, some location), [])

/-- The session state the page script keeps in `st.session_state`. -/
structure SessionState where
  weather_data : Option WeatherData
  air_data : Option AirData
  location : Option Location
  unit_symbol : String
  selected_unit : String
  saved_cities : List String
  city : String

/-- The favorites update of lines 253-257: skip if present, else pop the
oldest when the list already has 5 entries, then append. -/
def addFavorite (saved : List String) (city : String) : List String :=
  if city ∈ saved then saved
  else if 5 ≤ saved.length then saved.drop 1 ++ [city]
  else saved ++ [city]

/-- One user interaction on the page: the searched (or clicked) city, the
unit selection, and the three collaborator responses of the resulting fetch. -/
structure FetchEvent where
  city : String
  unit_symbol : String
  selected_unit : String
  geo : ApiResult (Option (List Location))
  weather : ApiResult WeatherData
  air : ApiResult AirData

/-- One rerun of the page script (lines 216-260): the button sets
`st.session_state.city`, the fetch runs, and only a fully successful fetch
overwrites the stored data and updates the favorites. -/
def sessionStep (s : SessionState) (e : FetchEvent) : SessionState :=
  let s1 := { s with city := e.city }
  match get_weather_data s1.city e.geo e.weather e.air with
  | ((some wd, some ad, some loc), _) =>
    { s1 with
      weather_data := some wd
      air_data := some ad
      unit_symbol := e.unit_symbol
      selected_unit := e.selected_unit
      location := some loc
      saved_cities := addFavorite s1.saved_cities s1.city }
  | _ => s1

/-- The initial session state of lines 211-228. -/
def initialState : SessionState :=
  { weather_data := none
    air_data := none
    location := none
    unit_symbol := "°C"
    selected_unit := "metric"
    saved_cities := ["London", "New York", "Tokyo"]
    city := "Ghaziabad" }

/-- The session state after a sequence of user interactions. -/
def runSession (evs : List FetchEvent) : SessionState :=
  List.foldl sessionStep initialState evs

/-- Mood chain as the specification words it, for comparison with
`get_weather_mood`: description substrings checked in order
rain/storm/drizzle, snow, temp above 30, temp below 10, cloudy/overcast,
clear, then a generic default. -/
def moodSpecChain (weather_code : Int) (temp : ℚ) (unit : String) : String :=
  let temp_c := toCelsius unit temp
  let condition := condStr weather_code
  if pyIn "rain" condition || pyIn "storm" condition || pyIn "drizzle" condition then
    "Cozy indoor reading weather 📚"
  else if pyIn "snow" condition then
    "Hot chocolate & blanket vibes ☕️"
  else if temp_c > 30 then
    "Bright, breezy, and sunglasses on 😎"
  else if temp_c < 10 then
    "Crisp air & warm jacket day 🧣"
  else if pyIn "cloudy" condition || pyIn "overcast" condition then
    "Perfectly soft and cloudy skies ☁️"
  else if pyIn "clear" condition then
    "Blue skies and good times ahead ☀️"
  else
    "A great day to be you! ✨"

/-- Clothing chain as the specification words it, for comparison with
`get_clothing_recommendation`: rain/drizzle, snow, storm, then the four
temperature bands, then a generic default. -/
def clothingSpecChain (weather_code : Int) (temp : ℚ) (unit : String) : String :=
  let temp_c := toCelsius unit temp
  let condition := condStr weather_code
  if pyIn "rain" condition || pyIn "drizzle" condition then
    "Waterproof jacket and an umbrella are a must! ☂️"
  else if pyIn "snow" condition then
    "Heavy coat, gloves, and a warm hat. Stay bundled!"
  else if pyIn "storm" condition then
    "Stay indoors! But if you must go out, waterproof gear is essential."
  else if temp_c > 28 then
    "Light cotton or linen clothes. Stay hydrated!"
  else if 20 ≤ temp_c ∧ temp_c ≤ 28 then
    "A t-shirt and jeans/shorts will be comfortable."
  else if 10 ≤ temp_c ∧ temp_c < 20 then
    "A light jacket or sweater is a good idea. 🧥"
  else if temp_c < 10 then
    "Wear a warm coat, layers are your friend!"
  else
    "Check the conditions and dress accordingly."

/-- Weather branch of the activity rule as the specification words it
(taken when the AQI level is not in the high-pollution set): rain/storm/
drizzle, snow, clear, cloudy/overcast/fog, then a generic default. -/
def activitySpecChain (weather_code : Int) : String :=
  let condition := condStr weather_code
  if pyIn "rain" condition || pyIn "storm" condition || pyIn "drizzle" condition then
    "Looks wet out there! Perfect time for a movie marathon, baking, or visiting an indoor cafe. ☕"
  else if pyIn "snow" condition then
    "It\x27s a winter wonderland! ❄️ Great for building a snowman or cozying up by the fire."
  else if pyIn "clear" condition then
    "Clear skies! ☀️ Fantastic day for jogging, a picnic in the park, or photography."
  else if pyIn "cloudy" condition || pyIn "overcast" condition || pyIn "fog" condition then
    "Pleasantly overcast. Great for a long walk, gardening, or outdoor sports without the harsh sun."
  else
    "A versatile day! Most outdoor or indoor activities are on the table."

/-- A substring of `"mainly clear"` search target: any string containing
`"mainly clear"` also contains `"clear"`. -/
lemma pyIn_clear_of_mainly (s : String) (h : pyIn "mainly clear" s = true) :
    pyIn "clear" s = true := by
  simp only [pyIn, decide_eq_true_eq] at *
  exact List.IsInfix.trans (by decide) h

/-- The redundant `or "mainly clear" in condition` disjunct of line 193
collapses onto the `"clear"` test. -/
lemma clear_or_mainly (s : String) :
    (pyIn "clear" s || pyIn "mainly clear" s) = pyIn "clear" s := by
  cases h : pyIn "clear" s with
  | true => simp
  | false =>
    simp only [Bool.false_or]
    cases h2 : pyIn "mainly clear" s with
    | false => rfl
    | true => exact absurd (pyIn_clear_of_mainly s h2) (by simp [h])

/-- On a non-high-pollution level, `get_activity_recommendation` computes the
weather branch of the chain. -/
lemma activity_weather_branch (code : Int) (lvl : String)
    (h : pyLower lvl ∉ (["unhealthy", "very unhealthy", "hazardous"] : List String)) :
    get_activity_recommendation code lvl = activitySpecChain code := by
  unfold get_activity_recommendation activitySpecChain
  rw [if_neg h, clear_or_mainly]

/-- `addFavorite` keeps a list within the 5-entry cap. -/
lemma addFavorite_length_le (saved : List String) (city : String)
    (h : saved.length ≤ 5) : (addFavorite saved city).length ≤ 5 := by
  unfold addFavorite
  split_ifs with h1 h2
  · exact h
  · simp only [List.length_append, List.length_drop, List.length_singleton]
    omega
  · simp only [List.length_append, List.length_singleton]
    omega

/-- One page rerun keeps the favorites within the 5-entry cap. -/
lemma sessionStep_saved_le (s : SessionState) (e : FetchEvent)
    (h : s.saved_cities.length ≤ 5) :
    (sessionStep s e).saved_cities.length ≤ 5 := by
  unfold sessionStep
  simp only
  split
  · exact addFavorite_length_le s.saved_cities e.city h
  · exact h

/-- The cap is preserved along any run of page reruns. -/
lemma foldl_saved_le (evs : List FetchEvent) :
    ∀ s : SessionState, s.saved_cities.length ≤ 5 →
      (List.foldl sessionStep s evs).saved_cities.length ≤ 5 := by
  induction evs with
  | nil => exact fun s h => h
  | cons e t ih => exact fun s h => ih _ (sessionStep_saved_le s e h)

/-- C1: `get_aqi_level` realises the inclusive-upper-bound ladder: values up
to 50 are Good/green, 51-100 Moderate/yellow, 101-150 Unhealthy (SG)/orange,
151-200 Unhealthy/red, 201-300 Very Unhealthy/purple, above 300
Hazardous/maroon, and every boundary value 50, 51, 100, 101, 150, 151, 200,
201, 300, 301 lands in the correct adjacent bucket. -/
theorem get_aqi_level_ladder (v : Int) :
    (v ≤ 50 → get_aqi_level v = ("Good", "green")) ∧
    (51 ≤ v → v ≤ 100 → get_aqi_level v = ("Moderate", "yellow")) ∧
    (101 ≤ v → v ≤ 150 → get_aqi_level v = ("Unhealthy (SG)", "orange")) ∧
    (151 ≤ v → v ≤ 200 → get_aqi_level v = ("Unhealthy", "red")) ∧
    (201 ≤ v → v ≤ 300 → get_aqi_level v = ("Very Unhealthy", "purple")) ∧
    (300 < v → get_aqi_level v = ("Hazardous", "maroon")) ∧
    (get_aqi_level 50 = ("Good", "green") ∧ get_aqi_level 51 = ("Moderate", "yellow") ∧
      get_aqi_level 100 = ("Moderate", "yellow") ∧
      get_aqi_level 101 = ("Unhealthy (SG)", "orange") ∧
      get_aqi_level 150 = ("Unhealthy (SG)", "orange") ∧
      get_aqi_level 151 = ("Unhealthy", "red") ∧ get_aqi_level 200 = ("Unhealthy", "red") ∧
      get_aqi_level 201 = ("Very Unhealthy", "purple") ∧
      get_aqi_level 300 = ("Very Unhealthy", "purple") ∧
      get_aqi_level 301 = ("Hazardous", "maroon")) := by
  refine ⟨?_, ?_, ?_, ?_, ?_, ?_, by decide⟩ <;>
    intros <;> unfold get_aqi_level <;> split_ifs <;> first | rfl | omega

/-- Witness for C1: AQI 120 is classified Unhealthy (SG)/orange. -/
theorem get_aqi_level_ladder_witness :
    get_aqi_level 120 = ("Unhealthy (SG)", "orange") :=
  (get_aqi_level_ladder 120).2.2.1 (by decide) (by decide)

/-- C2: `get_activity_recommendation` gives AQI priority over weather: on an
Unhealthy, Very Unhealthy or Hazardous level it returns the indoor pollution
message whatever the weather code; on any other level it computes the
weather-description chain (rain/storm/drizzle, snow, clear, cloudy/overcast/
fog, generic fall-through).  AQI 275 classifies as Very Unhealthy, and the
pollution message is returned even for the clear-sky code 0. -/
theorem activity_aqi_priority (code v : Int) :
    ((get_aqi_level v).1 ∈ (["Unhealthy", "Very Unhealthy", "Hazardous"] : List String) →
      get_activity_recommendation code (get_aqi_level v).1 =
        "High pollution! (" ++ pyTitle (pyLower (get_aqi_level v).1) ++
          ") 😷 Best to stay indoors. Good day for study or indoor exercise.") ∧
    ((get_aqi_level v).1 ∉ (["Unhealthy", "Very Unhealthy", "Hazardous"] : List String) →
      get_activity_recommendation code (get_aqi_level v).1 = activitySpecChain code) ∧
    (get_aqi_level 275).1 = "Very Unhealthy" ∧
    get_activity_recommendation 0 (get_aqi_level 275).1 =
      "High pollution! (Very Unhealthy) 😷 Best to stay indoors. Good day for study or indoor exercise." := by
  have h6 : (get_aqi_level v).1 ∈
      (["Good", "Moderate", "Unhealthy (SG)", "Unhealthy", "Very Unhealthy", "Hazardous"] :
        List String) := by
    unfold get_aqi_level
    split_ifs <;> decide
  refine ⟨?_, ?_, by decide, by decide⟩
  · intro h
    simp only [List.mem_cons, List.not_mem_nil, or_false] at h
    rcases h with h | h | h <;> rw [h] <;> rfl
  · intro hnot
    simp only [List.mem_cons, List.not_mem_nil, or_false] at h6
    rcases h6 with h1 | h1 | h1 | h1 | h1 | h1 <;> rw [h1] at hnot ⊢ <;>
      first
        | exact absurd (by decide) hnot
        | exact activity_weather_branch code _ (by decide)

/-- Witness for C2: AQI 275 forces the pollution message for clear sky, and
AQI 40 falls through to the weather chain. -/
theorem activity_aqi_priority_witness :
    get_activity_recommendation 0 (get_aqi_level 275).1 =
      "High pollution! (" ++ pyTitle (pyLower (get_aqi_level 275).1) ++
        ") 😷 Best to stay indoors. Good day for study or indoor exercise." ∧
    get_activity_recommendation 0 (get_aqi_level 40).1 = activitySpecChain 0 :=
  ⟨(activity_aqi_priority 0 275).1 (by decide), (activity_aqi_priority 0 40).2.1 (by decide)⟩

/-- C3: the favorites list never exceeds 5 entries in any reachable session
state; re-adding a present city leaves the list unchanged, and adding a new
city to a full list of 5 drops the oldest (front) entry before appending. -/
theorem favorites_bounded (evs : List FetchEvent) (cs : List String) (city : String) :
    (runSession evs).saved_cities.length ≤ 5 ∧
    (city ∈ cs → addFavorite cs city = cs) ∧
    (city ∉ cs → cs.length = 5 → addFavorite cs city = cs.drop 1 ++ [city]) ∧
    (cs.length ≤ 5 → (addFavorite cs city).length ≤ 5) := by
  refine ⟨foldl_saved_le evs initialState (by decide), ?_, ?_, addFavorite_length_le cs city⟩
  · intro h
    unfold addFavorite
    rw [if_pos h]
  · intro h1 h2
    unfold addFavorite
    rw [if_neg h1, if_pos (by omega)]

/-- Witness for C3: re-adding Tokyo to the default favorites changes nothing,
and a 6th distinct city evicts the oldest of a full list while keeping the
cap. -/
theorem favorites_bounded_witness :
    addFavorite ["London", "New York", "Tokyo"] "Tokyo" = ["London", "New York", "Tokyo"] ∧
    addFavorite ["Paris", "Cairo", "Lima", "Oslo", "Rome"] "Pune" =
      List.drop 1 ["Paris", "Cairo", "Lima", "Oslo", "Rome"] ++ ["Pune"] ∧
    (addFavorite ["Paris", "Cairo", "Lima", "Oslo", "Rome"] "Pune").length ≤ 5 :=
  ⟨(favorites_bounded [] ["London", "New York", "Tokyo"] "Tokyo").2.1 (by decide),
   (favorites_bounded [] ["Paris", "Cairo", "Lima", "Oslo", "Rome"] "Pune").2.2.1
     (by decide) (by decide),
   (favorites_bounded [] ["Paris", "Cairo", "Lima", "Oslo", "Rome"] "Pune").2.2.2 (by decide)⟩

/-- C4: when geocoding returns zero matches, `get_weather_data` reports
"City not found: <city>." (the emitted message extends it with
" Please try again.") and returns the all-`None` triple, and the rerun
leaves the stored weather data, air data, location and favorites intact. -/
theorem city_not_found (s : SessionState) (city us su : String)
    (weather : ApiResult WeatherData) (air : ApiResult AirData) :
    get_weather_data city (ApiResult.ok (some [])) weather air =
      ((none, none, none), ["City not found: " ++ city ++ ". Please try again."]) ∧
    "City not found: " ++ city ++ ". Please try again." =
      ("City not found: " ++ city ++ ".") ++ " Please try again." ∧
    (sessionStep s ⟨city, us, su, ApiResult.ok (some []), weather, air⟩).weather_data =
      s.weather_data ∧
    (sessionStep s ⟨city, us, su, ApiResult.ok (some []), weather, air⟩).air_data = s.air_data ∧
    (sessionStep s ⟨city, us, su, ApiResult.ok (some []), weather, air⟩).location = s.location ∧
    (sessionStep s ⟨city, us, su, ApiResult.ok (some []), weather, air⟩).saved_cities =
      s.saved_cities := by
  refine ⟨rfl, ?_, rfl, rfl, rfl, rfl⟩
  apply String.ext
  simp [String.data_append, List.append_assoc]

/-- C5: both recommendation functions normalise an imperial temperature to
Celsius by (F - 32) * 5/9 before any threshold comparison and use a metric
temperature unchanged; 86 °F normalises to exactly 30 °C, the hot-weather
comparison `temp_c > 30` is strict, so 86 °F with the clear-sky code yields
the clear-sky mood, not the bright/breezy one. -/
theorem temperature_normalisation (code : Int) (temp : ℚ) :
    toCelsius "metric" temp = temp ∧
    toCelsius "imperial" temp = (temp - 32) * 5 / 9 ∧
    get_weather_mood code temp "imperial" =
      get_weather_mood code ((temp - 32) * 5 / 9) "metric" ∧
    get_clothing_recommendation code temp "imperial" =
      get_clothing_recommendation code ((temp - 32) * 5 / 9) "metric" ∧
    toCelsius "imperial" 86 = 30 ∧
    ¬ toCelsius "imperial" 86 > 30 ∧
    get_weather_mood 0 86 "imperial" = "Blue skies and good times ahead ☀️" ∧
    get_weather_mood 0 86 "imperial" ≠ "Bright, breezy, and sunglasses on 😎" := by
  have h30 : toCelsius "imperial" 86 = 30 := by
    rw [show toCelsius "imperial" 86 = (86 - 32) * 5 / 9 from rfl]
    norm_num
  have hmood : get_weather_mood 0 86 "imperial" = "Blue skies and good times ahead ☀️" := by
    simp only [get_weather_mood, h30]
    decide
  refine ⟨rfl, rfl, rfl, rfl, h30, ?_, hmood, ?_⟩
  · rw [h30]
    decide
  · rw [hmood]
    decide

/-- C6: `get_weather_mood` is the first-match-wins chain the specification
states (rain/storm/drizzle, snow, above 30 °C, below 10 °C, cloudy/overcast,
clear, generic default), and each earlier rule takes priority over the later
ones at representative inputs. -/
theorem mood_priority_chain (code : Int) (temp : ℚ) (unit : String) :
    get_weather_mood code temp unit = moodSpecChain code temp unit ∧
    get_weather_mood 95 35 "metric" = "Cozy indoor reading weather 📚" ∧
    get_weather_mood 71 35 "metric" = "Hot chocolate & blanket vibes ☕️" ∧
    get_weather_mood 3 35 "metric" = "Bright, breezy, and sunglasses on 😎" ∧
    get_weather_mood 3 5 "metric" = "Crisp air & warm jacket day 🧣" ∧
    get_weather_mood 3 20 "metric" = "Perfectly soft and cloudy skies ☁️" ∧
    get_weather_mood 0 20 "metric" = "Blue skies and good times ahead ☀️" ∧
    get_weather_mood 45 20 "metric" = "A great day to be you! ✨" :=
  ⟨rfl, by decide, by decide, by decide, by decide, by decide, by decide, by decide⟩

/-- C7: `get_clothing_recommendation` is the first-match-wins chain the
specification states (rain/drizzle, snow, storm, then the four temperature
bands, then a generic default); for code 61 (Slight rain) at 15 °C metric the
clothing message is the waterproof one and the mood is the indoor-reading
one, and the storm rule takes priority over the hot band. -/
theorem clothing_priority_chain (code : Int) (temp : ℚ) (unit : String) :
    get_clothing_recommendation code temp unit = clothingSpecChain code temp unit ∧
    get_clothing_recommendation 61 15 "metric" =
      "Waterproof jacket and an umbrella are a must! ☂️" ∧
    get_weather_mood 61 15 "metric" = "Cozy indoor reading weather 📚" ∧
    get_clothing_recommendation 95 35 "metric" =
      "Stay indoors! But if you must go out, waterproof gear is essential." ∧
    get_clothing_recommendation 0 30 "metric" =
      "Light cotton or linen clothes. Stay hydrated!" ∧
    get_clothing_recommendation 0 25 "metric" =
      "A t-shirt and jeans/shorts will be comfortable." ∧
    get_clothing_recommendation 0 15 "metric" =
      "A light jacket or sweater is a good idea. 🧥" ∧
    get_clothing_recommendation 0 5 "metric" =
      "Wear a warm coat, layers are your friend!" :=
  ⟨rfl, by decide, by decide, by decide, by decide, by decide, by decide, by decide⟩

/-- C8: every integer weather code that is not a key of `WMO_CODES` displays
as the sentinel pair ("Unknown", "❓"). -/
theorem unknown_code_sentinel (code : Int) (h : code ∉ wmoKeys) :
    wmoDisplay code = ("Unknown", "❓") := by
  unfold wmoDisplay dictGet
  have hf : List.find? (fun p => p.1 == code) WMO_CODES = none := by
    rw [List.find?_eq_none]
    intro p hp hbeq
    exact h (List.mem_map.mpr ⟨p, hp, by simpa using hbeq⟩)
  rw [hf]

/-- Witness for C8: code 42 is not in the table and displays as the sentinel. -/
theorem unknown_code_sentinel_witness :
    wmoDisplay 42 = ("Unknown", "❓") :=
  unknown_code_sentinel 42 (by decide)

/-- C9: the fetch pipeline is all-or-nothing: when geocoding yields a match
and both the forecast and the air-quality calls succeed, the result is a
triple of three non-`None` components with no error message; on any single
collaborator failure the result is `(None, None, None)` together with one
user-visible message.  A partial triple is never returned. -/
theorem fetch_all_or_nothing (city : String) (geo : ApiResult (Option (List Location)))
    (weather : ApiResult WeatherData) (air : ApiResult AirData) :
    ((∃ loc rest, geo = ApiResult.ok (some (loc :: rest))) ∧
        (∃ wd, weather = ApiResult.ok wd) ∧ (∃ ad, air = ApiResult.ok ad) →
      ∃ wd ad loc, get_weather_data city geo weather air = ((some wd, some ad, some loc), [])) ∧
    (¬ ((∃ loc rest, geo = ApiResult.ok (some (loc :: rest))) ∧
        (∃ wd, weather = ApiResult.ok wd) ∧ (∃ ad, air = ApiResult.ok ad)) →
      ∃ msg, get_weather_data city geo weather air = ((none, none, none), [msg])) := by
  constructor
  · rintro ⟨⟨loc, rest, rfl⟩, ⟨wd, rfl⟩, ⟨ad, rfl⟩⟩
    exact ⟨wd, ad, loc, rfl⟩
  · intro h
    rcases geo with p | e | e
    · rcases p with _ | l
      · exact ⟨_, rfl⟩
      · rcases l with _ | ⟨loc, rest⟩
        · exact ⟨_, rfl⟩
        · rcases weather with wd | e | e
          · rcases air with ad | e | e
            · exact absurd ⟨⟨loc, rest, rfl⟩, ⟨wd, rfl⟩, ⟨ad, rfl⟩⟩ h
            · exact ⟨_, rfl⟩
            · exact ⟨_, rfl⟩
          · exact ⟨_, rfl⟩
          · exact ⟨_, rfl⟩
    · exact ⟨_, rfl⟩
    · exact ⟨_, rfl⟩

/-- Witness for C9: a fully successful fetch returns three non-`None`
components. -/
theorem fetch_all_or_nothing_witness :
    ∃ wd ad loc,
      get_weather_data "London"
          (ApiResult.ok (some [⟨"London", "GB", 51, 0, "Europe/London"⟩]))
          (ApiResult.ok ⟨0, 20⟩) (ApiResult.ok ⟨40⟩) =
        ((some wd, some ad, some loc), []) :=
  (fetch_all_or_nothing "London" (ApiResult.ok (some [⟨"London", "GB", 51, 0, "Europe/London"⟩]))
      (ApiResult.ok ⟨0, 20⟩) (ApiResult.ok ⟨40⟩)).1
    ⟨⟨_, _, rfl⟩, ⟨_, rfl⟩, ⟨_, rfl⟩⟩

/-- C10: for a weather code whose condition string contains none of rain,
drizzle, snow or storm, the four temperature bands of
`get_clothing_recommendation` cover every rational temperature, so one of
the four band messages is returned and the generic fall-through message is
unreachable. -/
theorem clothing_bands_cover (code : Int) (temp : ℚ) (unit : String)
    (h1 : pyIn "rain" (condStr code) = false) (h2 : pyIn "drizzle" (condStr code) = false)
    (h3 : pyIn "snow" (condStr code) = false) (h4 : pyIn "storm" (condStr code) = false) :
    (get_clothing_recommendation code temp unit = "Light cotton or linen clothes. Stay hydrated!" ∨
      get_clothing_recommendation code temp unit =
        "A t-shirt and jeans/shorts will be comfortable." ∨
      get_clothing_recommendation code temp unit = "A light jacket or sweater is a good idea. 🧥" ∨
      get_clothing_recommendation code temp unit = "Wear a warm coat, layers are your friend!") ∧
    get_clothing_recommendation code temp unit ≠ "Check the conditions and dress accordingly." := by
  have hmain : get_clothing_recommendation code temp unit =
        "Light cotton or linen clothes. Stay hydrated!" ∨
      get_clothing_recommendation code temp unit =
        "A t-shirt and jeans/shorts will be comfortable." ∨
      get_clothing_recommendation code temp unit = "A light jacket or sweater is a good idea. 🧥" ∨
      get_clothing_recommendation code temp unit = "Wear a warm coat, layers are your friend!" := by
    unfold get_clothing_recommendation
    simp only [h1, h2, h3, h4, Bool.or_false, Bool.false_or, Bool.false_eq_true, if_false]
    split_ifs with ha hb hc hd
    · exact Or.inl rfl
    · exact Or.inr (Or.inl rfl)
    · exact Or.inr (Or.inr (Or.inl rfl))
    · exact Or.inr (Or.inr (Or.inr rfl))
    · exfalso
      push_neg at ha hb hc hd
      exact absurd ha (not_le.mpr (hb (hc hd)))
  refine ⟨hmain, ?_⟩
  rcases hmain with h | h | h | h <;> rw [h] <;> decide

/-- Witness for C10: clear sky at 25 °C metric gives one of the four band
messages and not the generic fall-through. -/
theorem clothing_bands_cover_witness :
    (get_clothing_recommendation 0 25 "metric" = "Light cotton or linen clothes. Stay hydrated!" ∨
      get_clothing_recommendation 0 25 "metric" =
        "A t-shirt and jeans/shorts will be comfortable." ∨
      get_clothing_recommendation 0 25 "metric" = "A light jacket or sweater is a good idea. 🧥" ∨
      get_clothing_recommendation 0 25 "metric" = "Wear a warm coat, layers are your friend!") ∧
    get_clothing_recommendation 0 25 "metric" ≠ "Check the conditions and dress accordingly." :=
  clothing_bands_cover 0 25 "metric" (by decide) (by decide) (by decide) (by decide)
